import Mathlib

/-
Verification of the community_building_manager core: the markdown template
parser, the template-driven work generator (app/services/work_service.py),
and the outstanding / due-soon dashboard queries (app/api/dashboard.py).

Modelling conventions:
- Python strings are embedded as lists of characters (PyStr).  Python's
  str.strip / str.lstrip(chars) / str.startswith / str.split("\n") are
  re-implemented character by character.
- datetimes are embedded at second resolution.  A Python datetime is a pair
  of its wall-clock fields (encoded as seconds since the epoch of those
  fields) and an optional utcoffset; utcOffset = none models a naive
  datetime.  datetime.now(timezone.utc) has utcOffset = some 0 and its
  fields equal absolute time.  timedelta.days is floor division by 86400.
- the relational store is embedded as lists of rows in insertion (rowid)
  order; a SQL join is a nested flatMap over those lists filtered by the
  join conditions, and a correlated EXISTS subquery over the updates table
  is an any over the rows with the matching foreign key.  SQL comparisons
  against a NULL column evaluate to UNKNOWN and therefore do not select a
  row; sqlLt / sqlGe / sqlLe encode that three-valued behaviour.
-/

namespace CBM

/-! ## Python string primitives -/

abbrev PyStr := List Char

/-- Python template.split("\n"): split on every newline, keeping empty parts. -/
def splitNl : PyStr → List PyStr
  | [] => [[]]
  | c :: rest =>
    if c = '\n' then [] :: splitNl rest
    else
      match splitNl rest with
      | [] => [[c]]
      | l :: ls => (c :: l) :: ls

/-- Python str whitespace (the ASCII characters str.strip removes). -/
def isPyWsp (c : Char) : Bool :=
  c == ' ' || c == '\t' || c == '\n' || c == '\r' || c == '\x0b' || c == '\x0c'

/-- Python s.strip(): remove leading and trailing whitespace. -/
def pyStrip (s : PyStr) : PyStr :=
  ((s.dropWhile isPyWsp).reverse.dropWhile isPyWsp).reverse

/-- Python s.lstrip(cs): remove every leading character belonging to cs. -/
def pyLstrip (cs : PyStr) (s : PyStr) : PyStr :=
  s.dropWhile (fun c => cs.contains c)

/-- Python s.startswith(pre). -/
def pyStartsWith : PyStr → PyStr → Bool
  | [], _ => true
  | _ :: _, [] => false
  | p :: ps, c :: cs => p == c && pyStartsWith ps cs

/-! ## Template parser (work_service.parse_markdown_template) -/

/-- Heading test of the parser loop: line.startswith("## ") or line.startswith("### "). -/
def isHeadingLine (l : PyStr) : Bool :=
  pyStartsWith ['#', '#', ' '] l || pyStartsWith ['#', '#', '#', ' '] l

/-- Title extraction of the parser loop: line.lstrip("# ").strip(). -/
def headingTitle (l : PyStr) : PyStr :=
  pyStrip (pyLstrip ['#', ' '] l)

/-- Bullet test of the parser loop: line.startswith("- ") or line.startswith("* "). -/
def isBulletLine (l : PyStr) : Bool :=
  pyStartsWith ['-', ' '] l || pyStartsWith ['*', ' '] l

/-- Bullet text extraction of the parser loop: line.lstrip("-* ").strip(). -/
def bulletText (l : PyStr) : PyStr :=
  pyStrip (pyLstrip ['-', '*', ' '] l)

/-- Parser loop state: current_area, current_items and the accumulated areas. -/
structure PState where
  currentArea : Option PyStr
  currentItems : List PyStr
  areas : List (PyStr × List PyStr)
deriving DecidableEq

/-- Python "if current_area: areas.append((current_area, current_items))".
None and the empty string are falsy, so an open area is appended only when
its title is a non-empty string. -/
def closeArea (st : PState) : List (PyStr × List PyStr) :=
  match st.currentArea with
  | none => st.areas
  | some a => if a = [] then st.areas else st.areas ++ [(a, st.currentItems)]

/-- One iteration of the parser's for-loop over a raw line. -/
def stepLine (st : PState) (raw : PyStr) : PState :=
  let line := pyStrip raw
  if isHeadingLine line then
    { currentArea := some (headingTitle line)
      currentItems := []
      areas := closeArea st }
  else if isBulletLine line then
    let t := bulletText line
    { st with currentItems := if t = [] then st.currentItems else st.currentItems ++ [t] }
  else
    st

/-- The parser body applied to an already split list of lines. -/
def parseLines (ls : List PyStr) : List (PyStr × List PyStr) :=
  closeArea (ls.foldl stepLine ⟨none, [], []⟩)

/-- work_service.parse_markdown_template. -/
def parse_markdown_template (template : PyStr) : List (PyStr × List PyStr) :=
  parseLines (splitNl template)

/-! ## Data model -/

/-- A Python datetime: wall-clock fields encoded as seconds, plus an optional
utcoffset in seconds (none models a naive datetime). -/
structure PyDateTime where
  fieldsSeconds : Int
  utcOffset : Option Int
deriving DecidableEq

/-- Absolute time represented by a datetime (fields minus utcoffset; for a
naive datetime Python never computes this, the getD 0 is unused there). -/
def PyDateTime.absSeconds (d : PyDateTime) : Int :=
  d.fieldsSeconds - (d.utcOffset.getD 0)

/-- Python timedelta.days at second resolution: floor division by 86400. -/
def tdDays (d : Int) : Int := Int.fdiv d 86400

/-- locations table row (fields used by the core). -/
structure Location where
  id : Nat
  organization_id : Nat
  name : PyStr
deriving DecidableEq

/-- location_assets table row (an asset instance attached to a location). -/
structure LocationAsset where
  id : Nat
  location_id : Nat
deriving DecidableEq

/-- work_areas table row. -/
structure WorkArea where
  id : Nat
  asset_id : Nat
  statement : PyStr
  is_relevant : Bool
deriving DecidableEq

/-- work_items table row. -/
structure WorkItem where
  id : Nat
  work_area_id : Nat
  statement : PyStr
  description : Option PyStr
deriving DecidableEq

/-- updates table row.  review_date is a nullable stored DateTime column,
embedded as the stored scalar; created_at keeps its naive/aware flag. -/
structure Update where
  id : Nat
  work_item_id : Nat
  user_id : Nat
  narrative : PyStr
  review_date : Option Int
  created_at : PyDateTime
deriving DecidableEq

/-- The relational store: rows of each table in insertion (rowid) order,
plus the autoincrement counters the generator draws fresh ids from. -/
structure DB where
  locations : List Location
  locationAssets : List LocationAsset
  workAreas : List WorkArea
  workItems : List WorkItem
  updates : List Update
  nextAreaId : Nat
  nextItemId : Nat
deriving DecidableEq

/-! ## Work generator (work_service.generate_work_items_from_template) -/

/-- The inner for-loop of the generator: one WorkItem per task statement,
owned by the given work area, with description = None. -/
def addWorkItems (db : DB) (waId : Nat) : List PyStr → DB
  | [] => db
  | s :: rest =>
    addWorkItems
      { db with
        workItems := db.workItems ++ [{ id := db.nextItemId, work_area_id := waId, statement := s, description := none }]
        nextItemId := db.nextItemId + 1 }
      waId rest

/-- The outer for-loop of the generator over the parsed (area, items) pairs;
returns the updated store and the created_areas list. -/
def generateAreas (db : DB) (assetId : Nat) : List (PyStr × List PyStr) → DB × List WorkArea
  | [] => (db, [])
  | p :: rest =>
    let wa : WorkArea := { id := db.nextAreaId, asset_id := assetId, statement := p.1, is_relevant := true }
    let db2 := addWorkItems
      { db with workAreas := db.workAreas ++ [wa], nextAreaId := db.nextAreaId + 1 }
      wa.id p.2
    ((generateAreas db2 assetId rest).1, wa :: (generateAreas db2 assetId rest).2)

/-- work_service.generate_work_items_from_template. -/
def generate_work_items_from_template (db : DB) (asset : LocationAsset) (template : PyStr) :
    DB × List WorkArea :=
  generateAreas db asset.id (parse_markdown_template template)

/-! ## Dashboard queries (api/dashboard.py) -/

/-- SQL column < constant under three-valued logic: NULL selects nothing. -/
def sqlLt (v : Option Int) (n : Int) : Bool :=
  match v with
  | none => false
  | some r => decide (r < n)

/-- SQL column >= constant under three-valued logic. -/
def sqlGe (v : Option Int) (n : Int) : Bool :=
  match v with
  | none => false
  | some r => decide (n ≤ r)

/-- SQL column <= constant under three-valued logic. -/
def sqlLe (v : Option Int) (n : Int) : Bool :=
  match v with
  | none => false
  | some r => decide (r ≤ n)

/-- The WorkItem.updates relationship: rows of the updates table whose
work_item_id equals the item's id, in stored order. -/
def updatesOf (db : DB) (wi : WorkItem) : List Update :=
  db.updates.filter (fun u => u.work_item_id == wi.id)

/-- The join chain of the dashboard queries:
select(WorkItem).join(WorkArea).join(LocationAsset)
  .join(Location, LocationAsset.location_id == Location.id)
  .where(Location.organization_id == org_id). -/
def orgJoin (db : DB) (orgId : Nat) : List WorkItem :=
  db.workItems.flatMap (fun wi =>
    (db.workAreas.filter (fun wa => wa.id == wi.work_area_id)).flatMap (fun wa =>
      (db.locationAssets.filter (fun la => la.id == wa.asset_id)).flatMap (fun la =>
        (db.locations.filter (fun loc => loc.id == la.location_id && loc.organization_id == orgId)).map
          (fun _ => wi))))

/-- The update filter of dashboard._get_outstanding_items_for_org:
~WorkItem.updates.any() OR
WorkItem.updates.any(review_date.isnot(None) AND review_date < now). -/
def outstandingFilter (db : DB) (now : Int) (wi : WorkItem) : Bool :=
  (updatesOf db wi).isEmpty ||
    (updatesOf db wi).any (fun u => u.review_date.isSome && sqlLt u.review_date now)

/-- dashboard._get_outstanding_items_for_org, with the instant now passed
explicitly (the code computes now = datetime.now(timezone.utc) itself). -/
def get_outstanding_items_for_org (db : DB) (orgId : Nat) (now : Int) : List WorkItem :=
  (orgJoin db orgId).filter (outstandingFilter db now)

/-- The update filter of dashboard._get_items_due_next_month:
WorkItem.updates.any(review_date.isnot(None) AND review_date >= now AND
review_date <= now + timedelta(days=30)). -/
def dueNextMonthFilter (db : DB) (now : Int) (wi : WorkItem) : Bool :=
  (updatesOf db wi).any (fun u =>
    u.review_date.isSome && sqlGe u.review_date now && sqlLe u.review_date (now + 2592000))

/-- dashboard._get_items_due_next_month. -/
def get_items_due_next_month (db : DB) (orgId : Nat) (now : Int) : List WorkItem :=
  (orgJoin db orgId).filter (dueNextMonthFilter db now)

/-! ## The duplicated work_service.get_outstanding_items query (for C10).

The source builds the same join chain through
query(WorkItem).join(WorkArea).join(LocationAsset).join("location") and
filters the joined location's organization_id; its update filter omits the
isnot(None) guard: or_(~WorkItem.updates.any(),
WorkItem.updates.any(Update.review_date < datetime.utcnow())). -/

/-- The join chain of work_service.get_outstanding_items. -/
def serviceOrgJoin (db : DB) (orgId : Nat) : List WorkItem :=
  db.workItems.flatMap (fun wi =>
    (db.workAreas.filter (fun wa => wa.id == wi.work_area_id)).flatMap (fun wa =>
      (db.locationAssets.filter (fun la => la.id == wa.asset_id)).flatMap (fun la =>
        (db.locations.filter (fun loc => loc.id == la.location_id && loc.organization_id == orgId)).map
          (fun _ => wi))))

/-- The update filter of work_service.get_outstanding_items. -/
def serviceOutstandingFilter (db : DB) (now : Int) (wi : WorkItem) : Bool :=
  (updatesOf db wi).isEmpty || (updatesOf db wi).any (fun u => sqlLt u.review_date now)

/-- work_service.get_outstanding_items (its intended relational semantics;
the instant datetime.utcnow() is passed explicitly as now). -/
def work_service_get_outstanding_items (db : DB) (orgId : Nat) (now : Int) : List WorkItem :=
  (serviceOrgJoin db orgId).filter (serviceOutstandingFilter db now)

/-! ## Dashboard row enrichment (api/dashboard.py endpoints) -/

/-- The per-item location lookup of the endpoints:
select(Location).join(LocationAsset, Location.id == LocationAsset.location_id)
.join(WorkArea, LocationAsset.id == WorkArea.asset_id)
.where(WorkArea.id == item.work_area_id) ... .first(). -/
def locationFor (db : DB) (workAreaId : Nat) : Option Location :=
  (db.locations.flatMap (fun loc =>
    (db.locationAssets.filter (fun la => la.location_id == loc.id)).flatMap (fun la =>
      (db.workAreas.filter (fun wa => wa.asset_id == la.id && wa.id == workAreaId)).map
        (fun _ => loc)))).head?

/-- Days since the last update, as computed in both endpoints:
last_update = item.updates[-1] if item.updates else None, and the dual
naive/aware comparison path on last_update.created_at. -/
def daysSinceLastUpdate (now : PyDateTime) (updates : List Update) : Option Int :=
  match updates.getLast? with
  | none => none
  | some u =>
    match u.created_at.utcOffset with
    | none => some (tdDays (now.fieldsSeconds - u.created_at.fieldsSeconds))
    | some _ => some (tdDays (now.absSeconds - u.created_at.absSeconds))

/-- The OutstandingItem response row. -/
structure OutstandingItem where
  id : Nat
  statement : PyStr
  work_area_statement : PyStr
  location_name : PyStr
  days_since_update : Option Int
deriving DecidableEq

/-- The enrichment both endpoints apply to each item of their query result.
now is the instant datetime.now(timezone.utc), an aware UTC datetime. -/
def enrichItem (db : DB) (now : Int) (wi : WorkItem) : OutstandingItem :=
  { id := wi.id
    statement := wi.statement
    work_area_statement :=
      ((db.workAreas.find? (fun wa => wa.id == wi.work_area_id)).map WorkArea.statement).getD []
    location_name :=
      match locationFor db wi.work_area_id with
      | some loc => loc.name
      | none => ("Unknown").toList
    days_since_update := daysSinceLastUpdate ⟨now, some 0⟩ (updatesOf db wi) }

/-- dashboard.get_outstanding_items (the enriched endpoint). -/
def get_outstanding_items (db : DB) (orgId : Nat) (now : Int) : List OutstandingItem :=
  (get_outstanding_items_for_org db orgId now).map (enrichItem db now)

/-- dashboard.get_due_soon_items (the enriched endpoint). -/
def get_due_soon_items (db : DB) (orgId : Nat) (now : Int) : List OutstandingItem :=
  (get_items_due_next_month db orgId now).map (enrichItem db now)

/-! ## Derived notions used to state the claims -/

/-- Membership of a work item in the organization's
location → asset → work-area → work-item tree. -/
def inOrgTree (db : DB) (orgId : Nat) (wi : WorkItem) : Prop :=
  ∃ wa ∈ db.workAreas, wa.id = wi.work_area_id ∧
    ∃ la ∈ db.locationAssets, la.id = wa.asset_id ∧
      ∃ loc ∈ db.locations, loc.id = la.location_id ∧ loc.organization_id = orgId

instance (db : DB) (orgId : Nat) (wi : WorkItem) : Decidable (inOrgTree db orgId wi) := by
  unfold inOrgTree; infer_instance

/-- Heading titles of a document in document order (the parser's own heading
test and title extraction applied to each stripped line). -/
def docHeadings (ls : List PyStr) : List PyStr :=
  ls.filterMap (fun raw =>
    if isHeadingLine (pyStrip raw) then some (headingTitle (pyStrip raw)) else none)

/-- Non-empty bullet texts of a document in document order (bullet lines that
are not headings, with empty-after-stripping bullets dropped). -/
def docTasks (ls : List PyStr) : List PyStr :=
  ls.filterMap (fun raw =>
    if isHeadingLine (pyStrip raw) then none
    else if isBulletLine (pyStrip raw) then
      if bulletText (pyStrip raw) = [] then none else some (bulletText (pyStrip raw))
    else none)

/-- View of a work item without its generated primary key. -/
def itemView (it : WorkItem) : Nat × PyStr × Option PyStr :=
  (it.work_area_id, it.statement, it.description)

/-- The work items a generation call should create: for the i-th created
area, one item per task of the i-th parsed pair, in task order. -/
def newItemsView (created : List WorkArea) (parsed : List (PyStr × List PyStr)) :
    List (Nat × PyStr × Option PyStr) :=
  (created.zip parsed).flatMap (fun q => q.2.2.map (fun s => (q.1.id, s, none)))

end CBM


namespace CBM

/-! ## Membership characterisations of the dashboard queries -/

lemma mem_orgJoin {db : DB} {orgId : Nat} {wi : WorkItem} :
    wi ∈ orgJoin db orgId ↔ wi ∈ db.workItems ∧ inOrgTree db orgId wi := by
  simp only [orgJoin, inOrgTree, List.mem_flatMap, List.mem_filter, List.mem_map,
    Bool.and_eq_true, beq_iff_eq]
  constructor
  · rintro ⟨wi0, hwi0, wa, ⟨hwa, hwaid⟩, la, ⟨hla, hlaid⟩, loc, ⟨hloc, hlid, horg⟩, rfl⟩
    exact ⟨hwi0, wa, hwa, hwaid, la, hla, hlaid, loc, hloc, hlid, horg⟩
  · rintro ⟨hwi, wa, hwa, hwaid, la, hla, hlaid, loc, hloc, hlid, horg⟩
    exact ⟨wi, hwi, wa, ⟨hwa, hwaid⟩, la, ⟨hla, hlaid⟩, loc, ⟨hloc, hlid, horg⟩, rfl⟩

lemma pastDue_update_iff {u : Update} {now : Int} :
    (u.review_date.isSome && sqlLt u.review_date now) = true ↔
      ∃ r, u.review_date = some r ∧ r < now := by
  cases h : u.review_date <;> simp [sqlLt, h]

lemma outstandingFilter_iff {db : DB} {now : Int} {wi : WorkItem} :
    outstandingFilter db now wi = true ↔
      (updatesOf db wi = [] ∨ ∃ u ∈ updatesOf db wi, ∃ r, u.review_date = some r ∧ r < now) := by
  simp only [outstandingFilter, Bool.or_eq_true, List.isEmpty_iff, List.any_eq_true,
    pastDue_update_iff]

lemma mem_outstanding {db : DB} {orgId : Nat} {now : Int} {wi : WorkItem} :
    wi ∈ get_outstanding_items_for_org db orgId now ↔
      (wi ∈ db.workItems ∧ inOrgTree db orgId wi) ∧
        (updatesOf db wi = [] ∨ ∃ u ∈ updatesOf db wi, ∃ r, u.review_date = some r ∧ r < now) := by
  simp only [get_outstanding_items_for_org, List.mem_filter, mem_orgJoin, outstandingFilter_iff]

lemma dueSoon_update_iff {u : Update} {now : Int} :
    (u.review_date.isSome && sqlGe u.review_date now && sqlLe u.review_date (now + 2592000)) = true ↔
      ∃ r, u.review_date = some r ∧ now ≤ r ∧ r ≤ now + 2592000 := by
  cases h : u.review_date <;> simp [sqlGe, sqlLe, h, and_assoc]

lemma dueNextMonthFilter_iff {db : DB} {now : Int} {wi : WorkItem} :
    dueNextMonthFilter db now wi = true ↔
      ∃ u ∈ updatesOf db wi, ∃ r, u.review_date = some r ∧ now ≤ r ∧ r ≤ now + 2592000 := by
  simp only [dueNextMonthFilter, List.any_eq_true, dueSoon_update_iff]

lemma mem_dueSoon {db : DB} {orgId : Nat} {now : Int} {wi : WorkItem} :
    wi ∈ get_items_due_next_month db orgId now ↔
      (wi ∈ db.workItems ∧ inOrgTree db orgId wi) ∧
        ∃ u ∈ updatesOf db wi, ∃ r, u.review_date = some r ∧ now ≤ r ∧ r ≤ now + 2592000 := by
  simp only [get_items_due_next_month, List.mem_filter, mem_orgJoin, dueNextMonthFilter_iff]

/-! ## C1 -/

/-- C1: for a work item of an organization's tree, membership in the
outstanding query result holds iff the item has zero updates, or some update
of its entire history has a non-null reviewDate strictly before now. -/
theorem C1_outstanding_membership (db : DB) (orgId : Nat) (now : Int) (wi : WorkItem)
    (hmem : wi ∈ db.workItems) (htree : inOrgTree db orgId wi) :
    wi ∈ get_outstanding_items_for_org db orgId now ↔
      (updatesOf db wi = [] ∨ ∃ u ∈ updatesOf db wi, ∃ r, u.review_date = some r ∧ r < now) := by
  rw [mem_outstanding]
  simp [hmem, htree]

def tLoc : Location := { id := 1, organization_id := 7, name := ("L").toList }
def tAsset : LocationAsset := { id := 1, location_id := 1 }
def tArea : WorkArea := { id := 1, asset_id := 1, statement := ("A").toList, is_relevant := true }
def tItem : WorkItem := { id := 1, work_area_id := 1, statement := ("x").toList, description := none }
def tDB : DB :=
  { locations := [tLoc], locationAssets := [tAsset], workAreas := [tArea],
    workItems := [tItem], updates := [], nextAreaId := 2, nextItemId := 2 }

/-- C1 witness: an item with zero updates is in the outstanding result. -/
theorem C1_witness : tItem ∈ get_outstanding_items_for_org tDB 7 1000 :=
  (C1_outstanding_membership tDB 7 1000 tItem (by decide) (by decide)).mpr (Or.inl (by decide))

/-! ## C2 -/

/-- C2: for a work item of an organization's tree, membership in the
due-soon query result holds iff some update has a non-null reviewDate with
now ≤ reviewDate ≤ now + 30 days, both bounds inclusive; an update with
reviewDate = now + 30 days exactly puts the item in the due-soon result, and
an item whose single update has reviewDate = now + 31 days is in neither the
due-soon nor the outstanding result. -/
theorem C2_due_soon_membership (db : DB) (orgId : Nat) (now : Int) (wi : WorkItem)
    (hmem : wi ∈ db.workItems) (htree : inOrgTree db orgId wi) :
    (wi ∈ get_items_due_next_month db orgId now ↔
       ∃ u ∈ updatesOf db wi, ∃ r, u.review_date = some r ∧ now ≤ r ∧ r ≤ now + 2592000)
  ∧ ((∃ u ∈ updatesOf db wi, u.review_date = some (now + 2592000)) →
       wi ∈ get_items_due_next_month db orgId now)
  ∧ (∀ u, updatesOf db wi = [u] → u.review_date = some (now + 2678400) →
       wi ∉ get_items_due_next_month db orgId now ∧
       wi ∉ get_outstanding_items_for_org db orgId now) := by
  refine ⟨?_, ?_, ?_⟩
  · rw [mem_dueSoon]
    simp [hmem, htree]
  · rintro ⟨u, hu, hrd⟩
    rw [mem_dueSoon]
    exact ⟨⟨hmem, htree⟩, u, hu, now + 2592000, hrd, by omega, by omega⟩
  · intro u hupd hrd
    constructor
    · rw [mem_dueSoon]
      rintro ⟨-, u', hu', r, hr, hge, hle⟩
      rw [hupd] at hu'
      simp only [List.mem_singleton] at hu'
      subst hu'
      rw [hrd] at hr
      injection hr with h
      omega
    · rw [mem_outstanding]
      rintro ⟨-, h | ⟨u', hu', r, hr, hlt⟩⟩
      · rw [hupd] at h
        exact List.cons_ne_nil u [] h
      · rw [hupd] at hu'
        simp only [List.mem_singleton] at hu'
        subst hu'
        rw [hrd] at hr
        injection hr with h
        omega

def t2U : Update :=
  { id := 1, work_item_id := 1, user_id := 1, narrative := ("n").toList,
    review_date := some 2592000, created_at := ⟨0, none⟩ }
def t2DB : DB :=
  { locations := [tLoc], locationAssets := [tAsset], workAreas := [tArea],
    workItems := [tItem], updates := [t2U], nextAreaId := 2, nextItemId := 2 }

/-- C2 witness: a reviewDate exactly 30 days out is due-soon. -/
theorem C2_witness : tItem ∈ get_items_due_next_month t2DB 7 0 :=
  (C2_due_soon_membership t2DB 7 0 tItem (by decide) (by decide)).2.1 ⟨t2U, by decide, by decide⟩

/-! ## C3 -/

/-- C3: outstanding and due-soon are not mutually exclusive: an item of the
organization's tree carrying one update with a reviewDate strictly before
now and another with a reviewDate in [now, now + 30 days] belongs to both
query results. -/
theorem C3_dual_membership (db : DB) (orgId : Nat) (now : Int) (wi : WorkItem)
    (u1 u2 : Update) (r1 r2 : Int)
    (hmem : wi ∈ db.workItems) (htree : inOrgTree db orgId wi)
    (h1 : u1 ∈ updatesOf db wi) (hr1 : u1.review_date = some r1) (hlt : r1 < now)
    (h2 : u2 ∈ updatesOf db wi) (hr2 : u2.review_date = some r2)
    (hge : now ≤ r2) (hle : r2 ≤ now + 2592000) :
    wi ∈ get_outstanding_items_for_org db orgId now ∧
      wi ∈ get_items_due_next_month db orgId now := by
  constructor
  · rw [mem_outstanding]
    exact ⟨⟨hmem, htree⟩, Or.inr ⟨u1, h1, r1, hr1, hlt⟩⟩
  · rw [mem_dueSoon]
    exact ⟨⟨hmem, htree⟩, u2, h2, r2, hr2, hge, hle⟩

def t3U1 : Update :=
  { id := 1, work_item_id := 1, user_id := 1, narrative := ("n").toList,
    review_date := some 0, created_at := ⟨0, none⟩ }
def t3U2 : Update :=
  { id := 2, work_item_id := 1, user_id := 1, narrative := ("n").toList,
    review_date := some 864000, created_at := ⟨0, none⟩ }
def t3DB : DB :=
  { locations := [tLoc], locationAssets := [tAsset], workAreas := [tArea],
    workItems := [tItem], updates := [t3U1, t3U2], nextAreaId := 2, nextItemId := 2 }

/-- C3 witness: with now five days after the first reviewDate and five days
before the second, the item is in both result sets. -/
theorem C3_witness :
    tItem ∈ get_outstanding_items_for_org t3DB 7 432000 ∧
      tItem ∈ get_items_due_next_month t3DB 7 432000 :=
  C3_dual_membership t3DB 7 432000 tItem t3U1 t3U2 0 864000 (by decide) (by decide)
    (by decide) (by decide) (by decide) (by decide) (by decide) (by decide) (by decide)

end CBM

namespace CBM

/-! ## C10 -/

/-- C10: the intended relational semantics of the duplicated queries agree:
work_service.get_outstanding_items builds the same join chain as
dashboard._get_outstanding_items_for_org, and its missing
review_date.isnot(None) guard is immaterial under SQL three-valued logic,
so both produce the same work-item list on every store.  (The service copy
as written cannot actually run, see the results entry.) -/
theorem C10_duplicated_queries_equivalent (db : DB) (orgId : Nat) (now : Int) :
    work_service_get_outstanding_items db orgId now
      = get_outstanding_items_for_org db orgId now := by
  have h : ∀ u : Update,
      (u.review_date.isSome && sqlLt u.review_date now) = sqlLt u.review_date now := by
    intro u
    cases hu : u.review_date <;> simp [sqlLt, hu]
  show List.filter (serviceOutstandingFilter db now) (serviceOrgJoin db orgId)
      = List.filter (outstandingFilter db now) (orgJoin db orgId)
  have hj : serviceOrgJoin db orgId = orgJoin db orgId := rfl
  rw [hj]
  apply List.filter_congr
  intro wi _
  simp only [serviceOutstandingFilter, outstandingFilter, h]

/-! ## C8 -/

/-- C8: the days-since-last-update of an enriched row is None when the item
has no updates, and otherwise is computed from the last update of the
item's update list alone (independently of every earlier update), through
the dual timezone path: a naive created_at is subtracted from the
timezone-stripped now, an aware created_at from the aware now. -/
theorem C8_days_since_last_update (db : DB) (now : Int) (wi : WorkItem) :
    (updatesOf db wi = [] → (enrichItem db now wi).days_since_update = none)
  ∧ (∀ us u, updatesOf db wi = us ++ [u] →
      (enrichItem db now wi).days_since_update =
        some (match u.created_at.utcOffset with
          | none => tdDays (now - u.created_at.fieldsSeconds)
          | some _ => tdDays (now - u.created_at.absSeconds))) := by
  constructor
  · intro h
    simp [enrichItem, daysSinceLastUpdate, h]
  · intro us u h
    simp only [enrichItem, daysSinceLastUpdate, h, List.getLast?_concat]
    cases hoff : u.created_at.utcOffset <;>
      simp [PyDateTime.absSeconds, hoff, Option.getD]

def t8U1 : Update :=
  { id := 1, work_item_id := 1, user_id := 1, narrative := ("n").toList,
    review_date := none, created_at := ⟨500000, some 0⟩ }
def t8U2 : Update :=
  { id := 2, work_item_id := 1, user_id := 1, narrative := ("n").toList,
    review_date := none, created_at := ⟨0, none⟩ }
def t8DB : DB :=
  { locations := [tLoc], locationAssets := [tAsset], workAreas := [tArea],
    workItems := [tItem], updates := [t8U1, t8U2], nextAreaId := 2, nextItemId := 2 }

/-- C8 witness: with a naive last update created at epoch and now ten days
later, the row reports ten days, computed from the last update only. -/
theorem C8_witness : (enrichItem t8DB 864000 tItem).days_since_update = some 10 := by
  have h := (C8_days_since_last_update t8DB 864000 tItem).2 [t8U1] t8U2 (by decide)
  exact h.trans (by decide)

/-! ## C9 -/

lemma orgJoin_block_eq {db : DB} {orgId : Nat} {wi x : WorkItem}
    (hx : x ∈ (db.workAreas.filter (fun wa => wa.id == wi.work_area_id)).flatMap (fun wa =>
      (db.locationAssets.filter (fun la => la.id == wa.asset_id)).flatMap (fun la =>
        (db.locations.filter
          (fun loc => loc.id == la.location_id && loc.organization_id == orgId)).map
          (fun _ => wi)))) : x = wi := by
  simp only [List.mem_flatMap, List.mem_filter, List.mem_map] at hx
  obtain ⟨wa, -, la, -, loc, -, h⟩ := hx
  exact h.symm

lemma orgJoin_pairwise {db : DB} {orgId : Nat}
    (h : db.workItems.Pairwise (fun a b => a.id ≤ b.id)) :
    (orgJoin db orgId).Pairwise (fun a b => a.id ≤ b.id) := by
  unfold orgJoin
  rw [List.pairwise_flatMap]
  constructor
  · intro wi _
    apply List.pairwise_of_forall_mem_list
    intro x hx y hy
    rw [orgJoin_block_eq hx, orgJoin_block_eq hy]
  · refine h.imp ?_
    intro a b hab x hx y hy
    rw [orgJoin_block_eq hx, orgJoin_block_eq hy]
    exact hab

/-- C9: when the work_items table is in ascending id order, both enriched
endpoints return their rows in ascending work-item id order, and each row
is the enrichment of a query item whose location display name is the
resolved location's name, with the literal "Unknown" fallback when the
per-item location join resolves nothing. -/
theorem C9_enriched_rows (db : DB) (orgId : Nat) (now : Int)
    (hsorted : db.workItems.Pairwise (fun a b => a.id ≤ b.id)) :
    ((get_outstanding_items db orgId now).Pairwise (fun r s => r.id ≤ s.id))
  ∧ ((get_due_soon_items db orgId now).Pairwise (fun r s => r.id ≤ s.id))
  ∧ (∀ row ∈ get_outstanding_items db orgId now,
       ∃ wi ∈ get_outstanding_items_for_org db orgId now,
         row = enrichItem db now wi ∧
         row.location_name =
           (match locationFor db wi.work_area_id with
            | some loc => loc.name
            | none => ("Unknown").toList))
  ∧ (∀ row ∈ get_due_soon_items db orgId now,
       ∃ wi ∈ get_items_due_next_month db orgId now,
         row = enrichItem db now wi ∧
         row.location_name =
           (match locationFor db wi.work_area_id with
            | some loc => loc.name
            | none => ("Unknown").toList)) := by
  have hout : (get_outstanding_items_for_org db orgId now).Pairwise (fun a b => a.id ≤ b.id) :=
    (orgJoin_pairwise hsorted).filter (outstandingFilter db now)
  have hdue : (get_items_due_next_month db orgId now).Pairwise (fun a b => a.id ≤ b.id) :=
    (orgJoin_pairwise hsorted).filter (dueNextMonthFilter db now)
  refine ⟨?_, ?_, ?_, ?_⟩
  · rw [get_outstanding_items, List.pairwise_map]
    exact hout
  · rw [get_due_soon_items, List.pairwise_map]
    exact hdue
  · intro row hrow
    obtain ⟨wi, hwi, heq⟩ := List.mem_map.mp hrow
    refine ⟨wi, hwi, heq.symm, ?_⟩
    rw [← heq]
    rfl
  · intro row hrow
    obtain ⟨wi, hwi, heq⟩ := List.mem_map.mp hrow
    refine ⟨wi, hwi, heq.symm, ?_⟩
    rw [← heq]
    rfl

/-- C9 witness: the ordering conclusion at a concrete sorted store. -/
theorem C9_witness : (get_outstanding_items t3DB 7 432000).Pairwise (fun r s => r.id ≤ s.id) :=
  (C9_enriched_rows t3DB 7 432000 (by decide)).1

end CBM

namespace CBM

/-! ## Parser structure lemmas -/

lemma stepLine_heading {st : PState} {raw : PyStr} (h : isHeadingLine (pyStrip raw) = true) :
    stepLine st raw =
      { currentArea := some (headingTitle (pyStrip raw)), currentItems := [],
        areas := closeArea st } := by
  simp [stepLine, h]

lemma stepLine_bullet {st : PState} {raw : PyStr}
    (h1 : isHeadingLine (pyStrip raw) = false) (h2 : isBulletLine (pyStrip raw) = true) :
    stepLine st raw =
      { st with currentItems :=
          if bulletText (pyStrip raw) = [] then st.currentItems
          else st.currentItems ++ [bulletText (pyStrip raw)] } := by
  simp [stepLine, h1, h2]

lemma stepLine_other {st : PState} {raw : PyStr}
    (h1 : isHeadingLine (pyStrip raw) = false) (h2 : isBulletLine (pyStrip raw) = false) :
    stepLine st raw = st := by
  simp [stepLine, h1, h2]

lemma stepLine_empty_bullet {st : PState} {raw : PyStr}
    (h1 : isHeadingLine (pyStrip raw) = false) (h2 : isBulletLine (pyStrip raw) = true)
    (h3 : bulletText (pyStrip raw) = []) :
    stepLine st raw = st := by
  rw [stepLine_bullet h1 h2, if_pos h3]

/-- The title a state's open area will still contribute on closing: nothing
for no open area or an empty (falsy) title, else that title. -/
def optTitle : Option PyStr → List PyStr
  | none => []
  | some a => if a = [] then [] else [a]

lemma closeArea_map_fst (st : PState) :
    (closeArea st).map Prod.fst = st.areas.map Prod.fst ++ optTitle st.currentArea := by
  cases h : st.currentArea with
  | none => simp [closeArea, optTitle, h]
  | some a =>
    by_cases ha : a = [] <;> simp [closeArea, optTitle, h, ha]

lemma docHeadings_cons_heading {raw : PyStr} {ls : List PyStr}
    (h : isHeadingLine (pyStrip raw) = true) :
    docHeadings (raw :: ls) = headingTitle (pyStrip raw) :: docHeadings ls := by
  simp [docHeadings, List.filterMap_cons, h]

lemma docHeadings_cons_not {raw : PyStr} {ls : List PyStr}
    (h : isHeadingLine (pyStrip raw) = false) :
    docHeadings (raw :: ls) = docHeadings ls := by
  simp [docHeadings, List.filterMap_cons, h]

lemma docTasks_cons_heading {raw : PyStr} {ls : List PyStr}
    (h : isHeadingLine (pyStrip raw) = true) :
    docTasks (raw :: ls) = docTasks ls := by
  simp [docTasks, List.filterMap_cons, h]

lemma docTasks_cons_bullet {raw : PyStr} {ls : List PyStr}
    (h1 : isHeadingLine (pyStrip raw) = false) (h2 : isBulletLine (pyStrip raw) = true)
    (h3 : bulletText (pyStrip raw) ≠ []) :
    docTasks (raw :: ls) = bulletText (pyStrip raw) :: docTasks ls := by
  simp [docTasks, List.filterMap_cons, h1, h2, h3]

lemma docTasks_cons_bullet_empty {raw : PyStr} {ls : List PyStr}
    (h1 : isHeadingLine (pyStrip raw) = false) (h2 : isBulletLine (pyStrip raw) = true)
    (h3 : bulletText (pyStrip raw) = []) :
    docTasks (raw :: ls) = docTasks ls := by
  simp [docTasks, List.filterMap_cons, h1, h2, h3]

lemma docTasks_cons_other {raw : PyStr} {ls : List PyStr}
    (h1 : isHeadingLine (pyStrip raw) = false) (h2 : isBulletLine (pyStrip raw) = false) :
    docTasks (raw :: ls) = docTasks ls := by
  simp [docTasks, List.filterMap_cons, h1, h2]

lemma foldl_map_fst (ls : List PyStr) : ∀ st : PState,
    (closeArea (ls.foldl stepLine st)).map Prod.fst
      = st.areas.map Prod.fst ++ optTitle st.currentArea
          ++ (docHeadings ls).filter (fun t => !t.isEmpty) := by
  induction ls with
  | nil =>
    intro st
    simp [docHeadings, closeArea_map_fst]
  | cons raw ls ih =>
    intro st
    rw [List.foldl_cons]
    cases hh : isHeadingLine (pyStrip raw) with
    | true =>
      rw [stepLine_heading hh, ih, docHeadings_cons_heading hh, closeArea_map_fst]
      by_cases hT : headingTitle (pyStrip raw) = [] <;>
        simp [optTitle, hT, List.filter_cons, List.append_assoc]
    | false =>
      cases hb : isBulletLine (pyStrip raw) with
      | true =>
        rw [stepLine_bullet hh hb, ih, docHeadings_cons_not hh]
      | false =>
        rw [stepLine_other hh hb, ih, docHeadings_cons_not hh]

/-- The emitted area titles are exactly the non-empty heading titles of the
document, in document order. -/
lemma parseLines_map_fst (ls : List PyStr) :
    (parseLines ls).map Prod.fst = (docHeadings ls).filter (fun t => !t.isEmpty) := by
  unfold parseLines
  rw [foldl_map_fst]
  simp [optTitle]

lemma closeArea_flat_snd (st : PState) :
    ((closeArea st).flatMap Prod.snd).Sublist (st.areas.flatMap Prod.snd ++ st.currentItems) := by
  cases h : st.currentArea with
  | none => simp [closeArea, h]
  | some a =>
    by_cases ha : a = []
    · simp [closeArea, h, ha]
    · simp [closeArea, h, ha]

lemma foldl_flat_snd (ls : List PyStr) : ∀ st : PState,
    ((closeArea (ls.foldl stepLine st)).flatMap Prod.snd).Sublist
      (st.areas.flatMap Prod.snd ++ st.currentItems ++ docTasks ls) := by
  induction ls with
  | nil =>
    intro st
    simpa [docTasks] using closeArea_flat_snd st
  | cons raw ls ih =>
    intro st
    rw [List.foldl_cons]
    cases hh : isHeadingLine (pyStrip raw) with
    | true =>
      rw [stepLine_heading hh, docTasks_cons_heading hh]
      refine (ih _).trans ?_
      have h2 := (closeArea_flat_snd st).append_right (docTasks ls)
      simpa [List.append_assoc] using h2
    | false =>
      cases hb : isBulletLine (pyStrip raw) with
      | true =>
        by_cases ht : bulletText (pyStrip raw) = []
        · rw [stepLine_bullet hh hb, if_pos ht, docTasks_cons_bullet_empty hh hb ht]
          exact ih st
        · rw [stepLine_bullet hh hb, if_neg ht, docTasks_cons_bullet hh hb ht]
          have h1 := ih { st with currentItems := st.currentItems ++ [bulletText (pyStrip raw)] }
          simpa [List.append_assoc] using h1
      | false =>
        rw [stepLine_other hh hb, docTasks_cons_other hh hb]
        exact ih st

/-- Every task of every emitted area is a non-empty bullet text of the
document, and the emitted tasks respect document order. -/
lemma parseLines_flat_snd_sublist (ls : List PyStr) :
    ((parseLines ls).flatMap Prod.snd).Sublist (docTasks ls) := by
  unfold parseLines
  simpa using foldl_flat_snd ls ⟨none, [], []⟩

lemma heading_not_bullet {l : PyStr} (h : isHeadingLine l = true) : isBulletLine l = false := by
  cases l with
  | nil => simp [isHeadingLine, pyStartsWith] at h
  | cons c cs =>
    simp only [isHeadingLine, pyStartsWith, Bool.or_eq_true, Bool.and_eq_true, beq_iff_eq] at h
    have hc : c = '#' := by
      rcases h with ⟨h1, -⟩ | ⟨h1, -⟩ <;> exact h1.symm
    subst hc
    have h1 : (('-' : Char) == '#') = false := by decide
    have h2 : (('*' : Char) == '#') = false := by decide
    simp [isBulletLine, pyStartsWith, h1, h2]

lemma foldl_none_ci (ls : List PyStr) : ∀ (ci ci' : List PyStr) (acc : List (PyStr × List PyStr)),
    closeArea (ls.foldl stepLine ⟨none, ci, acc⟩)
      = closeArea (ls.foldl stepLine ⟨none, ci', acc⟩) := by
  induction ls with
  | nil => intro ci ci' acc; rfl
  | cons raw ls ih =>
    intro ci ci' acc
    rw [List.foldl_cons, List.foldl_cons]
    cases hh : isHeadingLine (pyStrip raw) with
    | true =>
      rw [stepLine_heading hh, stepLine_heading hh]
      rfl
    | false =>
      cases hb : isBulletLine (pyStrip raw) with
      | true =>
        rw [stepLine_bullet hh hb, stepLine_bullet hh hb]
        exact ih _ _ acc
      | false =>
        rw [stepLine_other hh hb, stepLine_other hh hb]
        exact ih ci ci' acc

lemma foldl_no_heading (ls : List PyStr) :
    (∀ l ∈ ls, isHeadingLine (pyStrip l) = false) →
      ∀ (ci : List PyStr) (acc : List (PyStr × List PyStr)),
        closeArea (ls.foldl stepLine ⟨none, ci, acc⟩) = acc := by
  induction ls with
  | nil => intro _ ci acc; rfl
  | cons raw ls ih =>
    intro hno ci acc
    have hh := hno raw (by simp)
    rw [List.foldl_cons]
    cases hb : isBulletLine (pyStrip raw) with
    | true =>
      rw [stepLine_bullet hh hb]
      exact ih (fun l hl => hno l (by simp [hl])) _ acc
    | false =>
      rw [stepLine_other hh hb]
      exact ih (fun l hl => hno l (by simp [hl])) ci acc

lemma foldl_inert (ls : List PyStr) :
    (∀ l ∈ ls, isHeadingLine (pyStrip l) = false ∧ isBulletLine (pyStrip l) = false) →
      ∀ st : PState, ls.foldl stepLine st = st := by
  induction ls with
  | nil => intro _ st; rfl
  | cons raw ls ih =>
    intro hno st
    obtain ⟨hh, hb⟩ := hno raw (by simp)
    rw [List.foldl_cons, stepLine_other hh hb]
    exact ih (fun l hl => hno l (by simp [hl])) st

end CBM

namespace CBM

/-! ## C5 -/

/-- C5: the parser emits (areaTitle, tasks) pairs following document order:
on the spec's example template it returns exactly
[("A", ["x","y"]), ("B", ["z"])]; in general the emitted titles are a
prefix-preserving selection (here: exactly the non-empty ones) of the
heading titles in document order, and the emitted tasks, concatenated in
emission order, form a sublist of the document's bullet texts in document
order. -/
theorem C5_parser_document_order :
    (parse_markdown_template (("## A\n- x\n- y\n\n## B\n- z").toList)
       = [((("A").toList), [(("x").toList), (("y").toList)]),
          ((("B").toList), [(("z").toList)])])
  ∧ (∀ ls : List PyStr,
       (parseLines ls).map Prod.fst = (docHeadings ls).filter (fun t => !t.isEmpty))
  ∧ (∀ ls : List PyStr, ((parseLines ls).flatMap Prod.snd).Sublist (docTasks ls)) := by
  exact ⟨by decide, parseLines_map_fst, parseLines_flat_snd_sublist⟩

/-! ## C6 -/

/-- C6 counterexample: "## #" passes the parser's own heading test and is
followed by no bullet line, yet no area at all is emitted for it (its title
strips to the empty string, which is falsy in the append guard), refuting
the claim that a heading with no following bullets is always emitted as an
area with an empty task list. -/
theorem C6_counterexample :
    isHeadingLine (pyStrip (("## #").toList)) = true ∧
      parse_markdown_template (("## #").toList) = [] := by
  decide

/-- C6 amended: the parser is total and defensive: bullet lines before any
heading are ignored and materialize no area; a document with no headings
yields the empty sequence; and a heading WHOSE TITLE IS NON-EMPTY AFTER
STRIPPING with no following bullet lines is still emitted as an area with
an empty task list (including at end of input) — a heading whose title
strips to empty is silently dropped together with its tasks. -/
theorem C6_amended_parser_defensive :
    (∀ b rest, isBulletLine (pyStrip b) = true → parseLines (b :: rest) = parseLines rest)
  ∧ (∀ ls : List PyStr, (∀ l ∈ ls, isHeadingLine (pyStrip l) = false) → parseLines ls = [])
  ∧ (∀ hd rest, isHeadingLine (pyStrip hd) = true → headingTitle (pyStrip hd) ≠ [] →
       (∀ l ∈ rest, isHeadingLine (pyStrip l) = false ∧ isBulletLine (pyStrip l) = false) →
       parseLines (hd :: rest) = [(headingTitle (pyStrip hd), [])])
  ∧ parseLines [(("## Empty").toList), (("## Full").toList), (("- t").toList)]
      = [((("Empty").toList), []), ((("Full").toList), [(("t").toList)])] := by
  refine ⟨?_, ?_, ?_, by decide⟩
  · intro b rest hb
    have hh : isHeadingLine (pyStrip b) = false := by
      cases hhh : isHeadingLine (pyStrip b) with
      | false => rfl
      | true =>
        rw [heading_not_bullet hhh] at hb
        exact absurd hb (by simp)
    unfold parseLines
    rw [List.foldl_cons, stepLine_bullet hh hb]
    exact foldl_none_ci rest _ [] []
  · intro ls hno
    unfold parseLines
    exact foldl_no_heading ls hno [] []
  · intro hd rest hh ht hrest
    unfold parseLines
    rw [List.foldl_cons, stepLine_heading hh, foldl_inert rest hrest]
    simp [closeArea, ht]

/-- C6 witness: a bullet line before any heading is discarded without
materializing an area. -/
theorem C6_witness :
    parseLines [(("- orphan").toList), (("## A").toList), (("- x").toList)]
      = parseLines [(("## A").toList), (("- x").toList)] :=
  C6_amended_parser_defensive.1 (("- orphan").toList)
    [(("## A").toList), (("- x").toList)] (by decide)

/-! ## C7 -/

/-- C7 counterexample: for the heading line "## # A" the heading text after
the leading marker, with surrounding whitespace stripped, is "# A", but the
parser emits the title "A": lstrip("# ") removes every leading '#' and ' '
character, not just the one leading marker, refuting "and nothing more
removed". -/
theorem C7_counterexample :
    parse_markdown_template (("## # A").toList) = [((("A").toList), [])] ∧
      (("A").toList : PyStr) ≠ ("# A").toList := by
  decide

/-- C7 amended: every emitted area title is the heading text of some heading
line with ALL leading '#' and ' ' characters removed and then trimmed;
every recorded task is the text of some non-heading bullet line with ALL
leading '-', '*' and ' ' characters removed and then trimmed, and is
non-empty; a bullet line whose content is empty after this stripping is
silently dropped (removing it from the document does not change the parse). -/
theorem C7_amended_stripping :
    (∀ ls : List PyStr, ∀ p ∈ parseLines ls, ∃ raw ∈ ls,
       isHeadingLine (pyStrip raw) = true ∧ p.1 = headingTitle (pyStrip raw))
  ∧ (∀ ls : List PyStr, ∀ p ∈ parseLines ls, ∀ t ∈ p.2, ∃ raw ∈ ls,
       isHeadingLine (pyStrip raw) = false ∧ isBulletLine (pyStrip raw) = true ∧
       t = bulletText (pyStrip raw) ∧ t ≠ [])
  ∧ (∀ pre b post, isHeadingLine (pyStrip b) = false → isBulletLine (pyStrip b) = true →
       bulletText (pyStrip b) = [] →
       parseLines (pre ++ b :: post) = parseLines (pre ++ post)) := by
  refine ⟨?_, ?_, ?_⟩
  · intro ls p hp
    have hmem : p.1 ∈ (docHeadings ls).filter (fun t => !t.isEmpty) := by
      rw [← parseLines_map_fst]
      exact List.mem_map_of_mem _ hp
    rw [List.mem_filter] at hmem
    obtain ⟨hmem, -⟩ := hmem
    rw [docHeadings, List.mem_filterMap] at hmem
    obtain ⟨raw, hraw, hsome⟩ := hmem
    by_cases hh : isHeadingLine (pyStrip raw)
    · rw [if_pos hh] at hsome
      injection hsome with e
      exact ⟨raw, hraw, hh, e.symm⟩
    · rw [if_neg hh] at hsome
      exact absurd hsome (by simp)
  · intro ls p hp t ht
    have h1 : t ∈ (parseLines ls).flatMap Prod.snd := List.mem_flatMap.mpr ⟨p, hp, ht⟩
    have h2 : t ∈ docTasks ls := (parseLines_flat_snd_sublist ls).subset h1
    rw [docTasks, List.mem_filterMap] at h2
    obtain ⟨raw, hraw, hsome⟩ := h2
    by_cases hh : isHeadingLine (pyStrip raw)
    · rw [if_pos hh] at hsome
      exact absurd hsome (by simp)
    · rw [if_neg hh] at hsome
      by_cases hb : isBulletLine (pyStrip raw)
      · rw [if_pos hb] at hsome
        by_cases he : bulletText (pyStrip raw) = []
        · rw [if_pos he] at hsome
          exact absurd hsome (by simp)
        · rw [if_neg he] at hsome
          injection hsome with e
          refine ⟨raw, hraw, by simpa using hh, hb, e.symm, ?_⟩
          rw [← e]
          exact he
      · rw [if_neg hb] at hsome
        exact absurd hsome (by simp)
  · intro pre b post hh hb he
    unfold parseLines
    rw [List.foldl_append, List.foldl_append, List.foldl_cons, stepLine_empty_bullet hh hb he]

/-- C7 witness: the empty-content bullet "- -" is dropped: the parse with it
equals the parse without it. -/
theorem C7_witness :
    parseLines [(("## A").toList), (("- -").toList), (("- x").toList)]
      = parseLines [(("## A").toList), (("- x").toList)] :=
  C7_amended_stripping.2.2 [(("## A").toList)] (("- -").toList) [(("- x").toList)]
    (by decide) (by decide) (by decide)

end CBM

namespace CBM

/-! ## Generator structure lemmas -/

lemma addWorkItems_workAreas : ∀ (ts : List PyStr) (db : DB) (w : Nat),
    (addWorkItems db w ts).workAreas = db.workAreas := by
  intro ts
  induction ts with
  | nil => intro db w; rfl
  | cons s rest ih => intro db w; rw [addWorkItems, ih]

lemma addWorkItems_locations : ∀ (ts : List PyStr) (db : DB) (w : Nat),
    (addWorkItems db w ts).locations = db.locations := by
  intro ts
  induction ts with
  | nil => intro db w; rfl
  | cons s rest ih => intro db w; rw [addWorkItems, ih]

lemma addWorkItems_locationAssets : ∀ (ts : List PyStr) (db : DB) (w : Nat),
    (addWorkItems db w ts).locationAssets = db.locationAssets := by
  intro ts
  induction ts with
  | nil => intro db w; rfl
  | cons s rest ih => intro db w; rw [addWorkItems, ih]

lemma addWorkItems_updates : ∀ (ts : List PyStr) (db : DB) (w : Nat),
    (addWorkItems db w ts).updates = db.updates := by
  intro ts
  induction ts with
  | nil => intro db w; rfl
  | cons s rest ih => intro db w; rw [addWorkItems, ih]

lemma addWorkItems_workItems : ∀ (ts : List PyStr) (db : DB) (w : Nat),
    ∃ ni : List WorkItem, (addWorkItems db w ts).workItems = db.workItems ++ ni ∧
      ni.map itemView = ts.map (fun s => (w, s, (none : Option PyStr))) := by
  intro ts
  induction ts with
  | nil =>
    intro db w
    exact ⟨[], by simp [addWorkItems], by simp⟩
  | cons s rest ih =>
    intro db w
    rw [addWorkItems]
    obtain ⟨ni, hni, hmap⟩ := ih
      { db with
        workItems := db.workItems ++ [{ id := db.nextItemId, work_area_id := w, statement := s, description := none }]
        nextItemId := db.nextItemId + 1 } w
    refine ⟨{ id := db.nextItemId, work_area_id := w, statement := s, description := none } :: ni, ?_, ?_⟩
    · rw [hni]
      simp
    · simp [hmap, itemView]

lemma generateAreas_spec : ∀ (ps : List (PyStr × List PyStr)) (db : DB) (a : Nat),
    ((generateAreas db a ps).1.workAreas = db.workAreas ++ (generateAreas db a ps).2)
  ∧ ((generateAreas db a ps).2.map WorkArea.statement = ps.map Prod.fst)
  ∧ ((generateAreas db a ps).2.map WorkArea.asset_id = List.replicate ps.length a)
  ∧ ((generateAreas db a ps).2.map WorkArea.is_relevant = List.replicate ps.length true)
  ∧ (∃ ni : List WorkItem, (generateAreas db a ps).1.workItems = db.workItems ++ ni ∧
       ni.map itemView = newItemsView (generateAreas db a ps).2 ps)
  ∧ ((generateAreas db a ps).1.locations = db.locations)
  ∧ ((generateAreas db a ps).1.locationAssets = db.locationAssets)
  ∧ ((generateAreas db a ps).1.updates = db.updates)
  ∧ ((generateAreas db a ps).2.length = ps.length) := by
  intro ps
  induction ps with
  | nil =>
    intro db a
    refine ⟨by simp [generateAreas], by simp [generateAreas], by simp [generateAreas],
      by simp [generateAreas], ⟨[], by simp [generateAreas], by simp [generateAreas, newItemsView]⟩,
      by simp [generateAreas], by simp [generateAreas], by simp [generateAreas],
      by simp [generateAreas]⟩
  | cons p ps ih =>
    intro db a
    rw [generateAreas]
    obtain ⟨hwa, hst, haid, hrel, ⟨ni1, hni1, hmap1⟩, hloc, hla, hupd, hlen⟩ :=
      ih (addWorkItems
        { db with
          workAreas := db.workAreas ++ [{ id := db.nextAreaId, asset_id := a, statement := p.1, is_relevant := true }]
          nextAreaId := db.nextAreaId + 1 }
        db.nextAreaId p.2) a
    obtain ⟨ni0, hni0, hmap0⟩ := addWorkItems_workItems p.2
      { db with
        workAreas := db.workAreas ++ [{ id := db.nextAreaId, asset_id := a, statement := p.1, is_relevant := true }]
        nextAreaId := db.nextAreaId + 1 }
      db.nextAreaId
    refine ⟨?_, ?_, ?_, ?_, ?_, ?_, ?_, ?_, ?_⟩
    · rw [hwa, addWorkItems_workAreas]
      simp
    · simp [hst]
    · simp [haid, List.replicate_succ]
    · simp [hrel, List.replicate_succ]
    · refine ⟨ni0 ++ ni1, ?_, ?_⟩
      · rw [hni1, hni0]
        simp
      · simp only [List.map_append, hmap0, hmap1, newItemsView, List.zip_cons_cons,
          List.flatMap_cons]
    · rw [hloc, addWorkItems_locations]
    · rw [hla, addWorkItems_locationAssets]
    · rw [hupd, addWorkItems_updates]
    · simp [hlen]

/-! ## C4 -/

/-- C4: work generation parses the template and creates, per parsed
(area, tasks) pair in parse order, exactly one WorkArea owned by the asset
with isRelevant = true, then one WorkItem per task of that pair in task
order with description = null; the call is strictly additive (pre-existing
WorkAreas and WorkItems are preserved as a prefix, and the other tables are
untouched), and running the same generation a second time adds a second
independent set, doubling the number of generated areas. -/
theorem C4_generation_additive (db : DB) (asset : LocationAsset) (template : PyStr) :
    ((generate_work_items_from_template db asset template).1.workAreas
       = db.workAreas ++ (generate_work_items_from_template db asset template).2)
  ∧ ((generate_work_items_from_template db asset template).2.map WorkArea.statement
       = (parse_markdown_template template).map Prod.fst)
  ∧ ((generate_work_items_from_template db asset template).2.map WorkArea.asset_id
       = List.replicate (parse_markdown_template template).length asset.id)
  ∧ ((generate_work_items_from_template db asset template).2.map WorkArea.is_relevant
       = List.replicate (parse_markdown_template template).length true)
  ∧ (∃ newItems : List WorkItem,
       (generate_work_items_from_template db asset template).1.workItems
         = db.workItems ++ newItems ∧
       newItems.map itemView
         = newItemsView (generate_work_items_from_template db asset template).2
             (parse_markdown_template template))
  ∧ ((generate_work_items_from_template db asset template).1.locations = db.locations)
  ∧ ((generate_work_items_from_template db asset template).1.locationAssets = db.locationAssets)
  ∧ ((generate_work_items_from_template db asset template).1.updates = db.updates)
  ∧ ((generate_work_items_from_template
        (generate_work_items_from_template db asset template).1 asset template).1.workAreas.length
       = db.workAreas.length + 2 * (parse_markdown_template template).length) := by
  obtain ⟨hwa, hst, haid, hrel, hitems, hloc, hla, hupd, hlen⟩ :=
    generateAreas_spec (parse_markdown_template template) db asset.id
  obtain ⟨hwa2, -, -, -, -, -, -, -, hlen2⟩ :=
    generateAreas_spec (parse_markdown_template template)
      (generateAreas db asset.id (parse_markdown_template template)).1 asset.id
  refine ⟨hwa, hst, haid, hrel, hitems, hloc, hla, hupd, ?_⟩
  rw [generate_work_items_from_template, generate_work_items_from_template, hwa2, hwa]
  simp [hlen, hlen2]
  omega

end CBM
